import Mathlib

/-!
Verification development for the stock-analysis-engine algorithm module
(`analysis_engine/algo.py`) and the pricing republish worker task
(`analysis_engine/work_tasks/publish_pricing_update.py`).

The Python code is shallowly embedded: engine state becomes an explicit
structure, each method becomes a pure function on that structure, fallible
paths return `Except`, and external sinks (file, redis, s3, slack) are
modelled by explicit effect records and oracle parameters.  Python floats
are idealized as rationals.  Helper modules that the two source files
depend on but that are not part of the provided sources (the order
builders, the trade-history builder, the constants module, the
result-envelope builder, the publish utility) are modelled from the
specification; each such definition carries a doc comment saying so.
-/

namespace StockEngine

/-- Status code enumeration.  Modelled from the spec: integral enumeration
with `NOT_RUN`, `INVALID`, `SUCCESS`, `ERR`, `TRADE_FILLED`; remaining
members are implementation-defined, so a single extra constructor
`tradeNotFilled` stands for the non-filled trade outcome. -/
inductive StatusCode where
  | notRun
  | invalid
  | success
  | err
  | tradeFilled
  | tradeNotFilled
  deriving DecidableEq, Repr

/-- Trade type enumeration.  Modelled from the spec: `TRADE_SHARES` means a
trade sized in whole shares. -/
inductive TradeType where
  | tradeShares
  deriving DecidableEq, Repr

/-- An order record returned by the order-construction helpers: status,
share count, fill price, post-trade balance, and the echoed inputs
(ticker, date, cache key, optional reason).  The free-form audit
`details` payload is opaque to every claim and is elided. -/
structure Order where
  status : StatusCode
  shares : Nat
  price : ℚ
  balance : ℚ
  ticker : String
  date : String
  useKey : String
  reason : Option String
  deriving DecidableEq, Repr

/-- Per-ticker position: owned shares plus the buy and sell order lists
(`{'shares': ..., 'buys': [...], 'sells': [...]}` in `algo.py`). -/
structure Position where
  shares : Nat
  buys : List Order
  sells : List Order
  deriving DecidableEq, Repr

/-- Maximum whole number of shares affordable so that
`shares * close + commission <= balance` (zero when the close price is not
positive). -/
def maxAffordableShares (close balance commission : ℚ) : Nat :=
  if close ≤ 0 then 0 else (⌊(balance - commission) / close⌋).toNat

/-- Modelled from the spec: `analysis_engine.build_buy_order.build_buy_order`
is not among the provided sources.  Per the section 4.2 buy contract: an
explicit share count is attempted exactly, otherwise the maximum affordable
whole share count is used; if the count is at least 1 and affordable the
order is `TRADE_FILLED` with `balance - (shares * close + commission)`,
otherwise it is returned unfilled with the balance unchanged. -/
def build_buy_order (ticker : String) (close : ℚ) (numOwned : Nat)
    (shares : Option Nat) (balance commission : ℚ)
    (date useKey : String) (reason : Option String) : Order :=
  let _ := numOwned
  let s : Nat :=
    match shares with
    | none => maxAffordableShares close balance commission
    | some k => k
  if 1 ≤ s ∧ (s : ℚ) * close + commission ≤ balance then
    { status := .tradeFilled, shares := s, price := close,
      balance := balance - ((s : ℚ) * close + commission),
      ticker := ticker, date := date, useKey := useKey, reason := reason }
  else
    { status := .tradeNotFilled, shares := s, price := close,
      balance := balance,
      ticker := ticker, date := date, useKey := useKey, reason := reason }

/-- Modelled from the spec: `analysis_engine.build_sell_order.build_sell_order`
is not among the provided sources.  Per the section 4.2 sell contract: an
explicit share count is attempted exactly (capped at owned shares),
otherwise all owned shares are sold; if owned shares are positive the
order is `TRADE_FILLED` carrying the positive count of shares sold and
`balance + (shares * close - commission)`, otherwise it is returned
unfilled with the balance unchanged. -/
def build_sell_order (ticker : String) (close : ℚ) (numOwned : Nat)
    (shares : Option Nat) (balance commission : ℚ)
    (date useKey : String) (reason : Option String) : Order :=
  let s : Nat :=
    match shares with
    | none => numOwned
    | some k => min k numOwned
  if 0 < numOwned then
    { status := .tradeFilled, shares := s, price := close,
      balance := balance + ((s : ℚ) * close - commission),
      ticker := ticker, date := date, useKey := useKey, reason := reason }
  else
    { status := .tradeNotFilled, shares := s, price := close,
      balance := balance,
      ticker := ticker, date := date, useKey := useKey, reason := reason }

/-- Association-list lookup for the `self.positions` dict. -/
def posLookup : List (String × Position) → String → Option Position
  | [], _ => none
  | (k, p) :: rest, t => if k = t then some p else posLookup rest t

/-- In-place update of an existing key in insertion order, appending the
entry when the key is new (Python dict assignment semantics). -/
def posUpdate : List (String × Position) → String → Position →
    List (String × Position)
  | [], t, p => [(t, p)]
  | (k, q) :: rest, t, p =>
      if k = t then (k, p) :: rest else (k, q) :: posUpdate rest t p

/-- Generic association-list lookup (Python `dict.get`). -/
def alookup {α : Type} : List (String × α) → String → Option α
  | [], _ => none
  | (k, v) :: rest, t => if k = t then some v else alookup rest t

/-- A tabular dataset (pandas DataFrame): named columns and an ordered
sequence of rows, each row an association of column name to value. -/
structure Frame where
  cols : List String
  rows : List (List (String × ℚ))
  deriving DecidableEq, Repr

/-- The shared empty tabular placeholder `pd.DataFrame([{}])` built in
`__init__`: one all-missing row, zero columns. -/
def EMPTY_PD : Frame := { cols := [], rows := [[]] }

/-- A value stored under a key of a dataset node `data` map: a tabular
dataset, a plain key-to-value map (the `pricing` snapshot), or a
non-tabular falsy value (Python `None`). -/
inductive DsVal where
  | frame (f : Frame)
  | pymap (m : List (String × ℚ))
  | pynone
  deriving DecidableEq, Repr

/-- `hasattr(value, 'empty')`: only DataFrames expose the tabular `empty`
capability; dicts and `None` do not. -/
def hasEmptyAttr : DsVal → Bool
  | .frame _ => true
  | _ => false

/-- One dataset node `{id, date, data}`; `none` models an absent key. -/
structure Node where
  id : Option String
  date : Option String
  data : Option (List (String × DsVal))
  deriving DecidableEq, Repr

/-- Multi-ticker dataset map: ticker symbol to chronological node list. -/
abbrev DataMap := List (String × List Node)

/-- One trade history entry, with exactly the fields the engine passes to
the trade history builder in `get_trade_history_node`.  Note that the
engine passes its `num_buys`/`num_sells` members (which hold the order
lists returned by `get_ticker_positions`) as `total_buys`/`total_sells`. -/
structure HistoryEntry where
  ticker : String
  algoStartPrice : ℚ
  originalBalance : ℚ
  numOwned : Option Nat
  close : ℚ
  balance : ℚ
  commission : ℚ
  date : Option String
  tradeType : TradeType
  high : ℚ
  low : ℚ
  openVal : ℚ
  volume : Int
  ask : ℚ
  bid : ℚ
  stopLoss : Option ℚ
  trailingStopLoss : Option ℚ
  buyHoldUnits : Nat
  sellHoldUnits : Nat
  spreadExpDate : Option String
  prevBalance : Option ℚ
  prevNumOwned : Option Nat
  totalBuys : Option (List Order)
  totalSells : Option (List Order)
  buyTriggered : Bool
  buyStrength : Option ℚ
  buyRisk : Option ℚ
  sellTriggered : Bool
  sellStrength : Option ℚ
  sellRisk : Option ℚ
  note : Option String
  dsId : Option String
  version : Nat
  deriving DecidableEq, Repr

/-- Modelled from the spec:
`analysis_engine.build_trade_history_entry.build_trade_history_entry` is
not among the provided sources.  Per section 4.3 it is a pure,
deterministic function of the engine-state fields, tolerating absent
optional fields, returning no entry only for arithmetically invalid
combinations (the exact validation rules are an implementation choice;
this model treats every combination as valid). -/
def build_trade_history_entry (e : HistoryEntry) : Option HistoryEntry :=
  some e

/-- The mutable member-variable state of `BaseAlgo`, restricted to the
fields the claims exercise.  Publish-configuration scalars that are only
threaded verbatim into the publish utility are represented by the fields
the publish methods inspect (enable flags and output files). -/
structure AlgoState where
  tickers : List String
  balance : ℚ
  startingBalance : ℚ
  startingClose : ℚ := 0
  commission : ℚ
  name : String
  ticker : String := ""
  numOwned : Option Nat := none
  numBuys : Option (List Order) := none
  numSells : Option (List Order) := none
  tradePrice : ℚ := 0
  latestClose : ℚ := 0
  latestHigh : ℚ := 0
  latestOpen : ℚ := 0
  latestLow : ℚ := 0
  latestVolume : Int := 0
  ask : ℚ := 0
  bid : ℚ := 0
  prevBal : Option ℚ := none
  prevNumOwned : Option Nat := none
  dsId : Option String := none
  dsDate : Option String := none
  dsData : Option (List (String × DsVal)) := none
  tradeDate : Option String := none
  tradeType : TradeType := .tradeShares
  buyHoldUnits : Nat := 20
  sellHoldUnits : Nat := 20
  spreadExpDate : Option String := none
  orderHistory : List HistoryEntry := []
  positions : List (String × Position) := []
  createdBuy : Bool := false
  shouldBuy : Bool := false
  buyStrength : Option ℚ := none
  buyRisk : Option ℚ := none
  createdSell : Bool := false
  shouldSell : Bool := false
  sellStrength : Option ℚ := none
  sellRisk : Option ℚ := none
  stopLoss : Option ℚ := none
  trailingStopLoss : Option ℚ := none
  lastHandleData : Option DataMap := none
  lastDsId : Option String := none
  lastDsDate : Option String := none
  lastDsData : Option (List (String × DsVal)) := none
  lastHistoryDict : Option HistoryEntry := none
  dfDaily : DsVal := .frame EMPTY_PD
  dfMinute : DsVal := .frame EMPTY_PD
  dfStats : DsVal := .frame EMPTY_PD
  dfPeers : DsVal := .frame EMPTY_PD
  dfFinancials : DsVal := .frame { cols := [], rows := [] }
  dfEarnings : DsVal := .frame EMPTY_PD
  dfDividends : DsVal := .frame EMPTY_PD
  dfQuote : DsVal := .frame EMPTY_PD
  dfCompany : DsVal := .frame EMPTY_PD
  dfIexNews : DsVal := .frame EMPTY_PD
  dfYahooNews : DsVal := .frame EMPTY_PD
  dfOptions : DsVal := .frame EMPTY_PD
  emptyPd : DsVal := .frame EMPTY_PD
  emptyPdStr : String := "[\x7b\x7d]"
  dfPricing : DsVal := .pymap []
  note : Option String := none
  debugMsg : String := ""
  version : Nat := 1
  publishHistory : Bool := true
  publishReport : Bool := true
  publishInput : Bool := true
  raiseOnErr : Bool := false
  buys : List Order := []
  sells : List Order := []
  loadedDataset : Option DataMap := none
  loadFromFile : Option String := none
  loadFromS3 : Option String := none
  loadFromRedis : Option String := none
  outputFileDir : Option String := none
  outputFilePfx : Option String := none
  historyOutputFile : Option String := none
  reportOutputFile : Option String := none
  inputOutputFile : Option String := none
  deriving Repr

/-- `get_ticker_positions`: `(num_owned, buys, sells)` for a ticker, from
the positions map, all `None` when the ticker is unknown. -/
def get_ticker_positions (st : AlgoState) (ticker : String) :
    Option Nat × Option (List Order) × Option (List Order) :=
  match posLookup st.positions ticker with
  | some p => (some p.shares, some p.buys, some p.sells)
  | none => (none, none, none)

/-- `get_owned_shares`: owned share count for a ticker, 0 if unknown. -/
def get_owned_shares (st : AlgoState) (ticker : String) : Nat :=
  match posLookup st.positions ticker with
  | some p => p.shares
  | none => 0

/-- `get_trade_history_node`: assemble one history entry from the current
member variables via the trade history builder. -/
def get_trade_history_node (st : AlgoState) : Option HistoryEntry :=
  build_trade_history_entry
    { ticker := st.ticker
      algoStartPrice := st.startingClose
      originalBalance := st.startingBalance
      numOwned := st.numOwned
      close := st.tradePrice
      balance := st.balance
      commission := st.commission
      date := st.tradeDate
      tradeType := st.tradeType
      high := st.latestHigh
      low := st.latestLow
      openVal := st.latestOpen
      volume := st.latestVolume
      ask := st.ask
      bid := st.bid
      stopLoss := st.stopLoss
      trailingStopLoss := st.trailingStopLoss
      buyHoldUnits := st.buyHoldUnits
      sellHoldUnits := st.sellHoldUnits
      spreadExpDate := st.spreadExpDate
      prevBalance := st.prevBal
      prevNumOwned := st.prevNumOwned
      totalBuys := st.numBuys
      totalSells := st.numSells
      buyTriggered := st.shouldBuy
      buyStrength := st.buyStrength
      buyRisk := st.buyRisk
      sellTriggered := st.shouldSell
      sellStrength := st.sellStrength
      sellRisk := st.sellRisk
      note := st.note
      dsId := st.dsId
      version := st.version }

/-- `create_buy_order(ticker, row, shares, reason)`: the method reads
`close` and `date` off the row (passed here as the two projections),
delegates to the buy order builder, and on `TRADE_FILLED` updates the
position, the balance and the trigger flag exactly as in the source:
`created_buy` and the `num_*` refresh happen only in the
existing-position branch; the balance update and the lifetime-buys
append are unconditional within the filled branch resp. the method; a
final `num_*` refresh always runs. -/
def create_buy_order (st : AlgoState) (ticker : String) (close : ℚ)
    (dsDate : String) (shares : Option Nat) (reason : Option String) :
    AlgoState :=
  let numOwned := get_owned_shares st ticker
  let newBuy := build_buy_order ticker close numOwned shares
    st.balance st.commission dsDate (ticker ++ "_" ++ dsDate) reason
  let st1 :=
    if newBuy.status = .tradeFilled then
      let st2 :=
        match posLookup st.positions ticker with
        | some p =>
            let p2 := { p with
              shares := p.shares + newBuy.shares
              buys := p.buys ++ [newBuy] }
            let st3 := { st with
              positions := posUpdate st.positions ticker p2 }
            let tp := get_ticker_positions st3 ticker
            { st3 with
              numOwned := tp.1
              numBuys := tp.2.1
              numSells := tp.2.2
              createdBuy := true }
        | none =>
            let p2 : Position :=
              { shares := newBuy.shares, buys := [newBuy], sells := [] }
            { st with positions := posUpdate st.positions ticker p2 }
      { st2 with balance := newBuy.balance }
    else st
  let st4 := { st1 with buys := st1.buys ++ [newBuy] }
  let tp := get_ticker_positions st4 ticker
  { st4 with numOwned := tp.1, numBuys := tp.2.1, numSells := tp.2.2 }

/-- `create_sell_order(...)`: symmetric to the buy path.  On
`TRADE_FILLED` the source *adds* the returned (positive) share count to
the existing position (`self.positions[ticker]['shares'] += int(...)`),
sets `created_sell` only in that branch, updates the balance from the
order, appends to the sell lists, and always refreshes `num_*`. -/
def create_sell_order (st : AlgoState) (ticker : String) (close : ℚ)
    (dsDate : String) (shares : Option Nat) (reason : Option String) :
    AlgoState :=
  let numOwned := get_owned_shares st ticker
  let newSell := build_sell_order ticker close numOwned shares
    st.balance st.commission dsDate (ticker ++ "_" ++ dsDate) reason
  let st1 :=
    if newSell.status = .tradeFilled then
      let st2 :=
        match posLookup st.positions ticker with
        | some p =>
            let p2 := { p with
              shares := p.shares + newSell.shares
              sells := p.sells ++ [newSell] }
            let st3 := { st with
              positions := posUpdate st.positions ticker p2 }
            let tp := get_ticker_positions st3 ticker
            { st3 with
              numOwned := tp.1
              numBuys := tp.2.1
              numSells := tp.2.2
              createdSell := true }
        | none =>
            let p2 : Position :=
              { shares := newSell.shares, buys := [], sells := [newSell] }
            { st with positions := posUpdate st.positions ticker p2 }
      { st2 with balance := newSell.balance }
    else st
  let st4 := { st1 with sells := st1.sells ++ [newSell] }
  let tp := get_ticker_positions st4 ticker
  { st4 with numOwned := tp.1, numBuys := tp.2.1, numSells := tp.2.2 }

/-- Python `int()` truncation toward zero on a rational. -/
def ratTrunc (q : ℚ) : Int :=
  if 0 ≤ q then q.floor else q.ceil

/-- Value of a column in the last row of a frame; `none` models the
pandas exception (empty frame `iloc[-1]`, or a missing cell). -/
def frameLastVal (f : Frame) (c : String) : Option ℚ :=
  match f.rows.getLast? with
  | none => none
  | some r => alookup r c

/-- Early-exit sequencing for the latest-price extraction block: once an
exception has occurred the remaining column reads are skipped and the
partial updates so far are kept. -/
def exStep (r : AlgoState × Bool) (k : AlgoState → AlgoState × Bool) :
    AlgoState × Bool :=
  if r.2 then r else k r.1

/-- One guarded column read of the extraction block: only attempted when
the column is present; a failed read signals the exception flag. -/
def exCol (f : Frame) (c : String) (upd : AlgoState → ℚ → AlgoState)
    (st : AlgoState) : AlgoState × Bool :=
  if f.cols.contains c then
    match frameLastVal f c with
    | none => (st, true)
    | some v => (upd st v, false)
  else (st, false)

/-- The `try` block at the end of `load_from_dataset` deriving
`latest_high/low/open/close/volume` (and `trade_price`,
`starting_close`) from the last row of the daily dataset; the second
component reports whether an exception was caught. -/
def extractLatest (st : AlgoState) : AlgoState × Bool :=
  match st.dfDaily with
  | .frame f =>
      exStep (exCol f "high" (fun s v => { s with latestHigh := v }) st)
        (fun s1 =>
      exStep (exCol f "low" (fun s v => { s with latestLow := v }) s1)
        (fun s2 =>
      exStep (exCol f "open" (fun s v => { s with latestOpen := v }) s2)
        (fun s3 =>
      exStep (exCol f "close" (fun s v =>
          let s := { s with latestClose := v, tradePrice := v }
          if s.startingClose = 0 then { s with startingClose := v } else s)
          s3)
        (fun s4 =>
      exCol f "volume" (fun s v => { s with latestVolume := ratTrunc v })
        s4))))
  | _ => (st, false)

/-- `load_from_dataset(ds_data)`: back up the previous id/date/data
triple, extract `id`/`date`/`data` with their string defaults, assign the
thirteen typed dataset members by key (empty placeholder default, `{}`
for pricing), replace any member lacking the `empty` attribute by the
placeholder, reset the per-node trigger flags, then run the latest-price
extraction whose caught failures re-raise only under `raise_on_err`.  A
node without a `data` key makes the subsequent `.get` run on the string
fallback and raise unconditionally. -/
def load_from_dataset (st : AlgoState) (dsData : Node) :
    Except String AlgoState :=
  let st := { st with lastDsId := st.dsId, lastDsDate := st.dsDate,
                      lastDsData := st.dsData }
  let st := { st with dsId := some (dsData.id.getD "missing-ID"),
                      dsDate := some (dsData.date.getD "missing-DATE") }
  match dsData.data with
  | none => .error "AttributeError: str object has no attribute get"
  | some d =>
      let ep := st.emptyPd
      let st := { st with
        dsData := some d
        dfDaily := (alookup d "daily").getD ep
        dfMinute := (alookup d "minute").getD ep
        dfStats := (alookup d "stats").getD ep
        dfPeers := (alookup d "peers").getD ep
        dfFinancials := (alookup d "financials").getD ep
        dfEarnings := (alookup d "earnings").getD ep
        dfDividends := (alookup d "dividends").getD ep
        dfQuote := (alookup d "quote").getD ep
        dfCompany := (alookup d "company").getD ep
        dfIexNews := (alookup d "news1").getD ep
        dfYahooNews := (alookup d "news").getD ep
        dfOptions := (alookup d "options").getD ep
        dfPricing := (alookup d "pricing").getD (.pymap []) }
      let fix := fun (v : DsVal) => if hasEmptyAttr v then v else ep
      let st := { st with
        dfDaily := fix st.dfDaily
        dfMinute := fix st.dfMinute
        dfStats := fix st.dfStats
        dfPeers := fix st.dfPeers
        dfFinancials := fix st.dfFinancials
        dfEarnings := fix st.dfEarnings
        dfDividends := fix st.dfDividends
        dfQuote := fix st.dfQuote
        dfCompany := fix st.dfCompany
        dfIexNews := fix st.dfIexNews
        dfYahooNews := fix st.dfYahooNews
        dfOptions := fix st.dfOptions
        dfPricing := fix st.dfPricing }
      let st := { st with
        tradeDate := st.dsDate
        createdBuy := false
        createdSell := false
        shouldBuy := false
        shouldSell := false }
      let r := extractLatest st
      if r.2 ∧ r.1.raiseOnErr then
        .error "failed getting latest prices"
      else
        .ok r.1

/-- Python truthiness of the `self.num_owned` member (`None` and `0` are
falsy). -/
def optNatTruthy : Option Nat → Bool
  | some n => n != 0
  | none => false

/-- Modelled from the spec: the consts helper `get_percent_done` renders a
formatted percentage string, guarding division by zero. -/
def get_percent_done (progress total : Nat) : String :=
  if total = 0 then "0%" else toString ((100 * progress) / total) ++ "%"

/-- `build_progress_label(progress, total)`. -/
def build_progress_label (progress total : Nat) : String :=
  get_percent_done progress total ++ " " ++ toString progress ++ "/" ++
    toString total

/-- `get_supported_tickers_in_data(data)`: the configured tickers present
as keys of the supplied map, in engine order. -/
def get_supported_tickers_in_data (st : AlgoState) (data : DataMap) :
    List String :=
  st.tickers.filter (fun t => (alookup data t).isSome)

/-- The default `process` implementation (the worked example): clears the
two trigger flags, then runs the three illustrative order calls with the
hard-coded example row (`close = 270.0`, `date = 2018-11-02`,
`reason = testing`).  The first two conditionals test the just-cleared
flags; the third sells when shares are still owned and no sell was
created yet. -/
def process (st : AlgoState) (algoId ticker : String) : AlgoState :=
  let _ := algoId
  let st := { st with shouldSell := false, shouldBuy := false }
  let st :=
    if optNatTruthy st.numOwned && st.shouldSell then
      create_sell_order st ticker 270 "2018-11-02" none (some "testing")
    else st
  let st :=
    if st.shouldBuy then
      create_buy_order st ticker 270 "2018-11-02" none (some "testing")
    else st
  if optNatTruthy st.numOwned && !st.createdSell then
    create_sell_order st ticker 270 "2018-11-02" none (some "testing")
  else st

/-- One iteration of the `handle_data` inner loop: the `node['date']` log
access raises on a missing date; then ticker/previous-balance snapshot,
position refresh, `load_from_dataset`, `process`, and the conditional
trade-history append. -/
def handleNode (st : AlgoState) (ticker : String) (curIdx total : Nat)
    (node : Node) : Except String AlgoState :=
  match node.date with
  | none => .error "KeyError: date"
  | some _ =>
      let trackLabel := build_progress_label curIdx total
      let algoId := "ticker=" ++ ticker ++ " " ++ trackLabel
      let st := { st with
        ticker := ticker
        prevBal := some st.balance
        prevNumOwned := st.numOwned }
      let tp := get_ticker_positions st ticker
      let st := { st with numOwned := tp.1, numBuys := tp.2.1,
                          numSells := tp.2.2 }
      match load_from_dataset st node with
      | .error e => .error e
      | .ok st =>
          let st := process st algoId ticker
          let h := get_trade_history_node st
          let st := { st with lastHistoryDict := h }
          let st :=
            match h with
            | some hd => { st with orderHistory := st.orderHistory ++ [hd] }
            | none => st
          .ok st

/-- The `handle_data` node loop for one ticker, threading the running
1-based progress counter. -/
def handleNodes (ticker : String) (total : Nat) :
    AlgoState → Nat → List Node → Except String AlgoState
  | st, _, [] => .ok st
  | st, curIdx, n :: rest =>
      match handleNode st ticker curIdx total n with
      | .error e => .error e
      | .ok st2 => handleNodes ticker total st2 (curIdx + 1) rest

/-- The `handle_data` ticker loop. -/
def handleTickers : AlgoState → DataMap → List String →
    Except String AlgoState
  | st, _, [] => .ok st
  | st, data, t :: rest =>
      let nodes := (alookup data t).getD []
      match handleNodes t nodes.length st 1 nodes with
      | .error e => .error e
      | .ok st2 => handleTickers st2 data rest

/-- Python truthiness of the `self.loaded_dataset` member (a dict is
truthy exactly when it is non-empty). -/
def dataMapTruthy : Option DataMap → Bool
  | some m => !m.isEmpty
  | none => false

/-- `handle_data(data)`: when a loaded external dataset is truthy it
replaces the supplied argument; then filtered tickers are replayed node
by node and the final data map is retained as `last_handle_data`. -/
def handle_data (st : AlgoState) (data : DataMap) :
    Except String AlgoState :=
  let data :=
    if dataMapTruthy st.loadedDataset then st.loadedDataset.getD []
    else data
  let dataForTickers := get_supported_tickers_in_data st data
  match handleTickers st data dataForTickers with
  | .error e => .error e
  | .ok st2 => .ok { st2 with lastHandleData := some data }

/-- Outcome of one publish method: the returned status and output file,
plus the payload handed to the multi-sink publish utility (`none` when
the utility was never invoked, i.e. no file/cache/archive/chat write was
attempted). -/
structure PubResult where
  status : StatusCode
  outputFile : Option String
  payloadHanded : Option String
  deriving DecidableEq, Repr

/-- Python falsiness of an optional string (`None` or empty). -/
def strOptFalsy : Option String → Bool
  | none => true
  | some s => s == ""

/-- Python `str.format` rendering of a possibly-`None` value. -/
def pyStr : Option String → String
  | none => "None"
  | some s => s

/-- `publish_trade_history(**kwargs)`.  The kwargs bag is restricted to
the two entries any claim touches (`output_dir`, `output_file`; an outer
`none` means the kwarg was not passed); the remaining publish-config
scalars are threaded verbatim into the utility and do not alter control
flow.  The multi-sink publish utility itself is not among the provided
sources and is abstracted as the `publishFn` parameter mapping the
serialized payload to the aggregated status (spec section 4.4).  Note the
source hands the utility the hard-coded `json.dumps({'test': 'hello'})`
placeholder payload. -/
def publish_trade_history (st : AlgoState)
    (kwOutputDir kwOutputFile : Option (Option String))
    (publishFn : String → StatusCode) : PubResult :=
  let outputDir := kwOutputDir.getD st.outputFileDir
  let outputFile := kwOutputFile.getD st.historyOutputFile
  let outputFile :=
    if st.raiseOnErr then
      if strOptFalsy outputFile then
        some (pyStr outputDir ++ "/history-" ++ pyStr st.outputFilePfx ++
          ".json")
      else outputFile
    else outputFile
  if !st.publishHistory then
    { status := .notRun, outputFile := outputFile, payloadHanded := none }
  else if strOptFalsy outputFile then
    { status := .invalid, outputFile := outputFile, payloadHanded := none }
  else
    let useData := "\x7b\"test\": \"hello\"\x7d"
    { status := publishFn useData, outputFile := outputFile,
      payloadHanded := some useData }

/-- `publish_report_datasets(**kwargs)`: identical shape to the trade
history publisher, against the report surface (same hard-coded
placeholder payload in the source). -/
def publish_report_datasets (st : AlgoState)
    (kwOutputDir kwOutputFile : Option (Option String))
    (publishFn : String → StatusCode) : PubResult :=
  let outputDir := kwOutputDir.getD st.outputFileDir
  let outputFile := kwOutputFile.getD st.reportOutputFile
  let outputFile :=
    if st.raiseOnErr then
      if strOptFalsy outputFile then
        some (pyStr outputDir ++ "/report-" ++ pyStr st.outputFilePfx ++
          ".json")
      else outputFile
    else outputFile
  if !st.publishReport then
    { status := .notRun, outputFile := outputFile, payloadHanded := none }
  else if strOptFalsy outputFile then
    { status := .invalid, outputFile := outputFile, payloadHanded := none }
  else
    let useData := "\x7b\"test\": \"hello\"\x7d"
    { status := publishFn useData, outputFile := outputFile,
      payloadHanded := some useData }

/-- String join with a separator. -/
def joinStr (sep : String) : List String → String
  | [] => ""
  | [x] => x
  | x :: rest => x ++ sep ++ joinStr sep rest

/-- Canonical JSON-ish rendering of one row cell. -/
def jsonCell (c : String × ℚ) : String :=
  "\"" ++ c.1 ++ "\": " ++ toString c.2

/-- Canonical JSON-ish rendering of one row / one map. -/
def jsonRow (r : List (String × ℚ)) : String :=
  "\x7b" ++ joinStr ", " (r.map jsonCell) ++ "\x7d"

/-- Canonical JSON-records rendering of a tabular dataset. -/
def frameToJsonRecords (f : Frame) : String :=
  "[" ++ joinStr ", " (f.rows.map jsonRow) ++ "]"

/-- Refinement comparator following the spec wording (not the source):
serialization of one dataset value - tabular values via JSON-records
rendering, non-tabular falsy values replaced by the canonical empty-array
placeholder, everything else JSON-encoded. -/
def specSerializeVal : DsVal → String
  | .frame f => frameToJsonRecords f
  | .pymap m => if m.isEmpty then "[\x7b\x7d]" else jsonRow m
  | .pynone => "[\x7b\x7d]"

/-- Refinement comparator following the spec wording (not the source):
the serialization of the engines thirteen dataset values, as the spec
says each publish surface hands to the multi-sink publish utility. -/
def specSerializedDatasetValues (st : AlgoState) : String :=
  let kvs : List (String × DsVal) :=
    [("daily", st.dfDaily), ("minute", st.dfMinute), ("stats", st.dfStats),
     ("peers", st.dfPeers), ("financials", st.dfFinancials),
     ("earnings", st.dfEarnings), ("dividends", st.dfDividends),
     ("quote", st.dfQuote), ("company", st.dfCompany),
     ("news1", st.dfIexNews), ("news", st.dfYahooNews),
     ("options", st.dfOptions), ("pricing", st.dfPricing)]
  "\x7b" ++
    joinStr ", "
      (kvs.map (fun kv => "\"" ++ kv.1 ++ "\": " ++ specSerializeVal kv.2))
    ++ "\x7d"

/-- The tracking key, output path and cache key derivations performed by
`BaseAlgo.__init__` (source lines 382 to 435). -/
structure InitPaths where
  outputFileDir : Option String
  outputFilePfx : Option String
  name : String
  saveAsKey : String
  defaultOutputFile : String
  defaultS3Key : String
  defaultRedisKey : String
  defaultInputOutputFile : String
  defaultHistoryOutputFile : String
  defaultReportOutputFile : String
  defaultInputRedisKey : String
  defaultHistoryRedisKey : String
  defaultReportRedisKey : String
  deriving DecidableEq, Repr

/-- The path-derivation portion of `BaseAlgo.__init__`: the error-raising
prefix/dir block, the `eqa` name default, the synthesized tracking key
(`utcNow` stands for the formatted UTC timestamp string read at
construction), the unconditional reassignment of the output dir to the
fixed test path followed by the `if not output_dir` guard, and the
default file paths and cache key namespaces. -/
def initPaths (raiseOnErr : Bool) (tickers : List String)
    (name : Option String) (useKey : Option String)
    (outputDir : Option String) (utcNow : String) : InitPaths :=
  let pfx : Option String :=
    if raiseOnErr && !tickers.isEmpty then
      some (tickers.headD "").toUpper
    else none
  let name := if strOptFalsy name then "eqa" else name.getD ""
  let saveAsKey :=
    let k := useKey.getD ""
    if k = "" then (name.replace " " "") ++ "-" ++ utcNow else k
  let dir : Option String :=
    if strOptFalsy outputDir then outputDir
    else some "/opt/sa/tests/datasets/algo"
  { outputFileDir := dir
    outputFilePfx := pfx
    name := name
    saveAsKey := saveAsKey
    defaultOutputFile := pyStr dir ++ "/" ++ saveAsKey ++ ".json"
    defaultS3Key := saveAsKey ++ ".json"
    defaultRedisKey := saveAsKey
    defaultInputOutputFile := pyStr dir ++ "/input-" ++ saveAsKey ++ ".json"
    defaultHistoryOutputFile :=
      pyStr dir ++ "/history-" ++ saveAsKey ++ ".json"
    defaultReportOutputFile :=
      pyStr dir ++ "/report-" ++ saveAsKey ++ ".json"
    defaultInputRedisKey := "algo:input:" ++ saveAsKey
    defaultHistoryRedisKey := "algo:history:" ++ saveAsKey
    defaultReportRedisKey := "algo:output:" ++ saveAsKey }

/-- Point update of a string-keyed attribute map (`self.__dict__[k] = v`). -/
def updFn {V : Type} (s : String → Option V) (k : String) (v : V) :
    String → Option V :=
  fun k2 => if k2 = k then some v else s k2

/-- One step of `load_from_config`: `if k in self.__dict__:
self.__dict__[k] = config_dict[k]` - overwrite only when the attribute
already exists. -/
def applyCfg {V : Type} (s : String → Option V) (kv : String × V) :
    String → Option V :=
  if (s kv.1).isSome then updFn s kv.1 kv.2 else s

/-- `load_from_config(config_dict)` over the dynamic attribute map
`self.__dict__`, iterating the configuration entries in order. -/
def load_from_config {V : Type} (s : String → Option V)
    (c : List (String × V)) : String → Option V :=
  c.foldl applyCfg s

/-- The value of the last occurrence of a key in a configuration list
(later entries win under left-to-right iteration). -/
def lookupLast {V : Type} : List (String × V) → String → Option V
  | [], _ => none
  | kv :: rest, k =>
      match lookupLast rest k with
      | some v => some v
      | none => if kv.1 = k then some kv.2 else none

section WorkerTask

/-- Modelled from the spec: `analysis_engine.consts` is not among the
provided sources.  Default ticker placeholder used when a caller omits
the `ticker` field (section 4.7: default ticker/ticker-id placeholders;
a non-empty ticker symbol). -/
def TICKER : String := "SPY"

/-- Modelled from the spec: default ticker-id placeholder. -/
def TICKER_ID : Int := 1

/-- Modelled from the spec: archive-upload feature toggle, default off
unless overridden by the environment. -/
def ENABLED_S3_UPLOAD : Bool := false

/-- Modelled from the spec: cache-publish feature toggle, default off
unless overridden by the environment. -/
def ENABLED_REDIS_PUBLISH : Bool := false

/-- Modelled from the spec: cache connection address fallback
(host:port). -/
def REDIS_ADDRESS : String := "localhost:6379"

/-- Modelled from the spec: default cache key fallback. -/
def REDIS_KEY : String := ""

/-- Modelled from the spec: default cache db index fallback. -/
def REDIS_DB : Nat := 0

/-- Modelled from the spec: transport-security flag fallback (string
compared against "1"). -/
def S3_SECURE : String := "0"

/-- Modelled from the spec: archive endpoint address fallback. -/
def S3_ADDRESS : String := "localhost:9000"

/-- The work-order dictionary of the pricing republish worker task.
`none` models an absent key; a present-but-falsy ticker is `some ""`. -/
structure WorkDict where
  ticker : Option String := none
  ticker_id : Option Int := none
  s3_key : Option String := none
  s3_bucket : Option String := none
  redis_key : Option String := none
  data : Option String := none
  updated : Option String := none
  s3_enabled : Option Bool := none
  redis_enabled : Option Bool := none
  s3_access_key : Option String := none
  s3_secret_key : Option String := none
  s3_region_name : Option String := none
  s3_address : Option String := none
  s3_secure : Option String := none
  redis_address : Option String := none
  redis_password : Option String := none
  redis_db : Option Nat := none
  redis_expire : Option (Option Nat) := none
  deriving DecidableEq, Repr

/-- The record echoed inside the worker-task result envelope. -/
structure PricingRec where
  ticker : Option String := none
  ticker_id : Option Int := none
  s3_enabled : Bool := false
  redis_enabled : Bool := false
  s3_bucket : Option String := none
  s3_key : Option String := none
  redis_key : Option String := none
  updated : Option String := none
  deriving DecidableEq, Repr

/-- The uniform `{status, err, rec}` result envelope. -/
structure TaskResult where
  status : StatusCode
  err : Option String
  recd : Option PricingRec
  deriving DecidableEq, Repr

/-- Modelled from the spec: `analysis_engine.build_result.build_result`
is not among the provided sources; per section 4.8 it merely shapes the
three fields (`rec` is `none` when the caller omits it, as the outer
exception handler of the worker task does). -/
def build_result (status : StatusCode) (err : Option String)
    (recd : Option PricingRec) : TaskResult :=
  { status := status, err := err, recd := recd }

/-- Oracle for the externally-owned sinks: whether the bucket existence
check raises, whether the bucket exists, and whether the object write
and the cache write succeed.  Every failure is caught and logged by the
task, so these flags may only influence log output, never the result. -/
structure SinkWorld where
  bucketCheckOk : Bool
  bucketExists : Bool
  putOk : Bool
  redisOk : Bool
  deriving DecidableEq, Repr

/-- Observable external-contact trace of one task invocation. -/
structure SinkLog where
  s3Contacted : Bool := false
  s3CreateAttempted : Bool := false
  s3PutAttempted : Bool := false
  redisContacted : Bool := false
  deriving DecidableEq, Repr

/-- Split a character list at the first colon. -/
def splitColonAux (acc : List Char) : List Char → Option (String × String)
  | [] => none
  | c :: rest =>
      if c = ':' then
        some (String.mk acc.reverse, String.mk (rest.takeWhile (· ≠ ':')))
      else splitColonAux (c :: acc) rest

/-- `redis_address.split(':')` followed by indexing `[0]` and `[1]`:
`none` models the IndexError on an address without a colon. -/
def splitHostPort (addr : String) : Option (String × String) :=
  splitColonAux [] addr.data

/-- `publish_pricing_update(work_dict)`: resolve the work-order fields
with their defaults, short-circuit with `ERR`/"missing ticker" when the
resolved ticker is falsy, then best-effort fan out to the archive sink
(bucket check, conditional create, object write - each failure caught
and swallowed) and the cache sink (address split outside any inner
handler, so a colon-free address escapes to the outer handler), and
finish with an overall `SUCCESS` envelope.  The outer handler converts
any escaped exception into an `ERR` envelope. -/
def publish_pricing_update (w : WorkDict) (world : SinkWorld) :
    TaskResult × SinkLog :=
  let rec0 : PricingRec := {}
  let ticker := w.ticker.getD TICKER
  let tickerId := w.ticker_id.getD TICKER_ID
  if ticker = "" then
    (build_result .err (some "missing ticker") (some rec0), {})
  else
    let s3Key := w.s3_key
    let s3BucketName := w.s3_bucket.getD "pricing"
    let redisKeyRec := w.redis_key
    let updated := w.updated
    let enableS3Upload := w.s3_enabled.getD ENABLED_S3_UPLOAD
    let enableRedisPublish := w.redis_enabled.getD ENABLED_REDIS_PUBLISH
    let rec1 : PricingRec :=
      { ticker := some ticker
        ticker_id := some tickerId
        s3_bucket := some s3BucketName
        s3_key := s3Key
        redis_key := redisKeyRec
        updated := updated
        s3_enabled := enableS3Upload
        redis_enabled := enableRedisPublish }
    let log1 : SinkLog :=
      if enableS3Upload then
        { s3Contacted := true
          s3CreateAttempted :=
            world.bucketCheckOk && !world.bucketExists
          s3PutAttempted := true }
      else {}
    if enableRedisPublish then
      match splitHostPort (w.redis_address.getD REDIS_ADDRESS) with
      | none =>
          (build_result .err
            (some ("failed - publish_pricing_update dict=... with " ++
              "ex=IndexError: list index out of range")) none, log1)
      | some _ =>
          let log2 := { log1 with redisContacted := true }
          (build_result .success none (some rec1), log2)
    else
      (build_result .success none (some rec1), log1)

end WorkerTask

/-- Convenience constructor supplying the mandatory construction
arguments and leaving every other member at its `__init__` value. -/
def mkAlgo (tickers : List String) (balance commission : ℚ)
    (name : String) : AlgoState :=
  { tickers := tickers, balance := balance, startingBalance := balance,
    commission := commission, name := name }

/-- Engine holding a position of 10 owned shares of SPY. -/
def stC1 : AlgoState :=
  { mkAlgo ["SPY"] 1000 6 "test" with
      positions := [("SPY", { shares := 10, buys := [], sells := [] })] }

/-- Freshly constructed engine, no positions. -/
def stC2 : AlgoState := mkAlgo ["SPY"] 1000 6 "test"

/-- Dataset node whose `data` map omits every optional key. -/
def nodeC2a : Node :=
  { id := some "SPY_2018-11-05", date := some "2018-11-05", data := some [] }

/-- Dataset node carrying a non-empty `pricing` map. -/
def nodeC2b : Node :=
  { id := some "SPY_2018-11-05"
    date := some "2018-11-05"
    data := some [("pricing", DsVal.pymap [("close", 101)])] }

/-- Engine with the history surface enabled, a resolvable output file and
a non-empty pricing dataset value. -/
def stC3 : AlgoState :=
  { mkAlgo ["SPY"] 1000 6 "test" with
      historyOutputFile := some "/tmp/history.json"
      dfPricing := .pymap [("close", 101)] }

/-- Same engine as `stC3` but with different dataset values. -/
def stC3plain : AlgoState :=
  { mkAlgo ["SPY"] 1000 6 "test" with
      historyOutputFile := some "/tmp/history.json" }

/-- Concrete publish-utility oracle used in closed evaluations. -/
def pubFnC3 : String → StatusCode :=
  fun s => if s = "" then .err else .success

/-- A work order lacking the `ticker` field entirely. -/
def wC4 : WorkDict := {}

/-- Sink world in which every external operation succeeds. -/
def worldAllOk : SinkWorld :=
  { bucketCheckOk := true, bucketExists := true, putOk := true,
    redisOk := true }

/-- Sink world in which every external operation fails. -/
def worldAllFail : SinkWorld :=
  { bucketCheckOk := false, bucketExists := false, putOk := false,
    redisOk := false }

/-- Freshly constructed engine for the first-fill buy. -/
def stC5 : AlgoState := mkAlgo ["SPY"] 1000 6 "test"

/-- Engine holding an existing position of 2 owned shares of SPY. -/
def stC5W : AlgoState :=
  { mkAlgo ["SPY"] 1000 6 "test" with
      positions := [("SPY", { shares := 2, buys := [], sells := [] })] }

/-- Engine with the report surface disabled. -/
def stC7 : AlgoState :=
  { mkAlgo ["SPY"] 1000 6 "test" with
      publishReport := false
      reportOutputFile := some "/tmp/report.json" }

/-- Work order with both sinks enabled. -/
def wC8 : WorkDict :=
  { ticker := some "SPY", s3_enabled := some true,
    redis_enabled := some true }

/-- Attribute map holding a single `balance` attribute. -/
def sC9 : String → Option Nat :=
  fun k => if k = "balance" then some 1 else none

/-- Configuration map with one known and one unknown key. -/
def cC9 : List (String × Nat) := [("balance", 2), ("unknown", 3)]

/-- Engine carrying a non-empty externally loaded dataset. -/
def stC10 : AlgoState :=
  { mkAlgo ["SPY"] 1000 6 "test" with
      loadedDataset := some [("SPY", [])]
      loadFromFile := some "/tmp/algo-ready.json" }

/-- An alternative data map for the replay-equality witness. -/
def dC10 : DataMap :=
  [("AAPL", [{ id := some "AAPL_2018-11-05", date := some "2018-11-05",
               data := some [] }])]

/-- Looking a key up right after updating it yields the written
position. -/
theorem posLookup_posUpdate (ps : List (String × Position)) (t : String)
    (p : Position) : posLookup (posUpdate ps t p) t = some p := by
  induction ps with
  | nil => simp [posUpdate, posLookup]
  | cons hd tl ih =>
      rcases hd with ⟨k, q⟩
      by_cases hk : k = t <;> simp [posUpdate, posLookup, hk, ih]

/-- Pointwise characterization of `load_from_config`: a key keeps its
value unless it already existed and occurs in the configuration, in
which case the last configured value wins. -/
theorem load_from_config_eval {V : Type} (c : List (String × V)) :
    ∀ (s : String → Option V) (k : String),
      load_from_config s c k =
        (s k).map (fun sv => (lookupLast c k).getD sv) := by
  induction c with
  | nil =>
      intro s k
      cases hs : s k <;> simp [load_from_config, lookupLast, hs]
  | cons kv rest ih =>
      intro s k
      have hstep : load_from_config s (kv :: rest) =
          load_from_config (applyCfg s kv) rest := rfl
      rw [hstep, ih]
      by_cases hk : k = kv.1
      · subst hk
        cases hs : s kv.1 with
        | none => simp [applyCfg, hs, lookupLast]
        | some a =>
            cases hl : lookupLast rest kv.1 <;>
              simp [applyCfg, updFn, hs, lookupLast, hl]
      · have hk2 : ¬ kv.1 = k := fun hx => hk hx.symm
        by_cases hi : (s kv.1).isSome <;>
          cases hl : lookupLast rest k <;>
            simp [applyCfg, updFn, hi, hk, hk2, lookupLast, hl]

/-- C1: with 10 owned shares, a sell-all at close 50 with commission 6
goes `TRADE_FILLED`; the balance does increase by `10*50 - 6`, but the
engine adds the returned positive share count to the position, leaving
20 owned shares rather than reducing the position to 0 (the sell-side
accounting slip the spec design notes flag). -/
theorem c1_sell_all_doubles_position :
    (build_sell_order "SPY" 50 (get_owned_shares stC1 "SPY") none
      stC1.balance stC1.commission "2018-11-05" ("SPY" ++ "_" ++
      "2018-11-05") none).status = .tradeFilled
    ∧ (create_sell_order stC1 "SPY" 50 "2018-11-05" none none).balance =
        stC1.balance + (10 * 50 - 6)
    ∧ (posLookup (create_sell_order stC1 "SPY" 50 "2018-11-05" none
        none).positions "SPY").map Position.shares = some 20
    ∧ (create_sell_order stC1 "SPY" 50 "2018-11-05" none
        none).numOwned = some 20
    ∧ (create_sell_order stC1 "SPY" 50 "2018-11-05" none
        none).createdSell = true := by
  norm_num [create_sell_order, build_sell_order, get_owned_shares,
    get_ticker_positions, posLookup, posUpdate, stC1, mkAlgo]

/-- C2: loading a node whose `data` map omits every optional key raises
no exception and sets the twelve tabular members to the shared empty
placeholder - but `df_pricing`, first defaulted to the empty map, is then
replaced by the empty DataFrame placeholder because a dict lacks the
`empty` attribute; likewise a pricing map present in `data` is replaced
rather than kept (contradicting the module docstring). -/
theorem c2_pricing_replaced_by_empty_frame :
    (load_from_dataset stC2 nodeC2a).isOk = true
    ∧ (load_from_dataset stC2 nodeC2a).toOption.map AlgoState.dfDaily =
        some stC2.emptyPd
    ∧ (load_from_dataset stC2 nodeC2a).toOption.map AlgoState.dfMinute =
        some stC2.emptyPd
    ∧ (load_from_dataset stC2 nodeC2a).toOption.map AlgoState.dfStats =
        some stC2.emptyPd
    ∧ (load_from_dataset stC2 nodeC2a).toOption.map AlgoState.dfPeers =
        some stC2.emptyPd
    ∧ (load_from_dataset stC2 nodeC2a).toOption.map
        AlgoState.dfFinancials = some stC2.emptyPd
    ∧ (load_from_dataset stC2 nodeC2a).toOption.map
        AlgoState.dfEarnings = some stC2.emptyPd
    ∧ (load_from_dataset stC2 nodeC2a).toOption.map
        AlgoState.dfDividends = some stC2.emptyPd
    ∧ (load_from_dataset stC2 nodeC2a).toOption.map AlgoState.dfQuote =
        some stC2.emptyPd
    ∧ (load_from_dataset stC2 nodeC2a).toOption.map
        AlgoState.dfCompany = some stC2.emptyPd
    ∧ (load_from_dataset stC2 nodeC2a).toOption.map
        AlgoState.dfIexNews = some stC2.emptyPd
    ∧ (load_from_dataset stC2 nodeC2a).toOption.map
        AlgoState.dfYahooNews = some stC2.emptyPd
    ∧ (load_from_dataset stC2 nodeC2a).toOption.map
        AlgoState.dfOptions = some stC2.emptyPd
    ∧ (load_from_dataset stC2 nodeC2a).toOption.map
        AlgoState.dfPricing = some (.frame EMPTY_PD)
    ∧ DsVal.frame EMPTY_PD ≠ DsVal.pymap []
    ∧ (load_from_dataset stC2 nodeC2b).toOption.map
        AlgoState.dfPricing = some (.frame EMPTY_PD)
    ∧ DsVal.frame EMPTY_PD ≠ DsVal.pymap [("close", 101)] := by
  decide

/-- C3: with the history surface enabled and a resolvable output file,
the payload handed to the publish utility is the hard-coded
`json.dumps({'test': 'hello'})` placeholder - independent of the engine
dataset values and different from their spec-described serialization -
while the utility status is indeed what the method returns. -/
theorem c3_history_payload_is_placeholder :
    (publish_trade_history stC3 none none pubFnC3).payloadHanded =
      some "\x7b\"test\": \"hello\"\x7d"
    ∧ (publish_trade_history stC3 none none pubFnC3).status =
        pubFnC3 "\x7b\"test\": \"hello\"\x7d"
    ∧ (publish_trade_history stC3plain none none pubFnC3).payloadHanded =
        (publish_trade_history stC3 none none pubFnC3).payloadHanded
    ∧ specSerializedDatasetValues stC3 ≠ "\x7b\"test\": \"hello\"\x7d" := by
  decide

/-- C4 counterexample: a work order lacking the `ticker` field does not
produce the `ERR`/"missing ticker" result - the resolved ticker falls
back to the non-empty default placeholder and the task finishes with
`SUCCESS`. -/
theorem c4_missing_ticker_not_err :
    wC4.ticker = none
    ∧ (publish_pricing_update wC4 worldAllOk).1.status = .success
    ∧ (publish_pricing_update wC4 worldAllOk).1.err = none := by
  decide

/-- C4 amended: the `ERR` result with message "missing ticker" (and no
sink contact) arises exactly from a work order whose `ticker` field is
present with a falsy value; an absent field falls back to the default
placeholder. -/
theorem c4_falsy_ticker_err (w : WorkDict) (world : SinkWorld)
    (h : w.ticker = some "") :
    (publish_pricing_update w world).1 =
      build_result .err (some "missing ticker") (some {})
    ∧ (publish_pricing_update w world).2 = {} := by
  constructor <;> simp [publish_pricing_update, h, build_result]

/-- C4 witness: the falsy-ticker theorem applied at a concrete work
order. -/
theorem c4_falsy_ticker_err_witness :
    (publish_pricing_update { ticker := some "" } worldAllOk).1 =
      build_result .err (some "missing ticker") (some {})
    ∧ (publish_pricing_update { ticker := some "" } worldAllOk).2 = {} :=
  c4_falsy_ticker_err { ticker := some "" } worldAllOk rfl

/-- C5 counterexample: the first fill for a ticker with no existing
position leaves `created_buy` at `false` (the flag is set only in the
existing-position branch of the source), although the order fills. -/
theorem c5_first_fill_no_created_buy :
    (build_buy_order "SPY" 270 (get_owned_shares stC5 "SPY") none
      stC5.balance stC5.commission "2018-11-05" ("SPY" ++ "_" ++
      "2018-11-05") none).status = .tradeFilled
    ∧ posLookup stC5.positions "SPY" = none
    ∧ (create_buy_order stC5 "SPY" 270 "2018-11-05" none
        none).createdBuy = false
    ∧ (posLookup (create_buy_order stC5 "SPY" 270 "2018-11-05" none
        none).positions "SPY").map Position.shares = some 3 := by
  have hm : maxAffordableShares 270 1000 6 = 3 := by
    norm_num [maxAffordableShares]
    rfl
  norm_num [create_buy_order, build_buy_order, get_owned_shares,
    get_ticker_positions, posLookup, posUpdate, stC5, mkAlgo, hm]

/-- C5 amended: on a `TRADE_FILLED` buy the engine increments (or
creates) the position share count, appends the order to the position
buy list and the lifetime buys list, adopts the order post-trade
balance, and refreshes `num_owned`/`num_buys`/`num_sells` from the
position; but `created_buy` is set to `true` only when a position for
the ticker already existed, and is left unchanged on a first fill. -/
theorem c5_buy_filled_updates (st : AlgoState) (ticker : String)
    (close : ℚ) (dsDate : String) (shares : Option Nat)
    (reason : Option String) (o : Order)
    (ho : o = build_buy_order ticker close (get_owned_shares st ticker)
      shares st.balance st.commission dsDate (ticker ++ "_" ++ dsDate)
      reason)
    (h : o.status = .tradeFilled) :
    (create_buy_order st ticker close dsDate shares reason).balance =
      o.balance
    ∧ (create_buy_order st ticker close dsDate shares reason).buys =
        st.buys ++ [o]
    ∧ (create_buy_order st ticker close dsDate shares
        reason).createdBuy =
        (if (posLookup st.positions ticker).isSome then true
         else st.createdBuy)
    ∧ posLookup (create_buy_order st ticker close dsDate shares
        reason).positions ticker =
        some { shares := get_owned_shares st ticker + o.shares
               buys := ((posLookup st.positions ticker).map
                 Position.buys).getD [] ++ [o]
               sells := ((posLookup st.positions ticker).map
                 Position.sells).getD [] }
    ∧ (create_buy_order st ticker close dsDate shares reason).numOwned =
        some (get_owned_shares st ticker + o.shares)
    ∧ (create_buy_order st ticker close dsDate shares reason).numBuys =
        some (((posLookup st.positions ticker).map
          Position.buys).getD [] ++ [o])
    ∧ (create_buy_order st ticker close dsDate shares reason).numSells =
        some (((posLookup st.positions ticker).map
          Position.sells).getD []) := by
  subst ho
  rcases hp : posLookup st.positions ticker with _ | p
  · have hg : get_owned_shares st ticker = 0 := by
      simp [get_owned_shares, hp]
    rw [hg] at h ⊢
    simp [create_buy_order, get_ticker_positions, hg, hp, h,
      posLookup_posUpdate]
  · have hg : get_owned_shares st ticker = p.shares := by
      simp [get_owned_shares, hp]
    rw [hg] at h ⊢
    simp [create_buy_order, get_ticker_positions, hg, hp, h,
      posLookup_posUpdate]

/-- C5 witness: the amended buy theorem applied to a filled buy on an
existing position (all updates happen, including `created_buy`). -/
theorem c5_buy_filled_updates_witness :
    (create_buy_order stC5W "SPY" 270 "2018-11-05" none
      none).createdBuy = true
    ∧ (create_buy_order stC5W "SPY" 270 "2018-11-05" none
        none).numOwned = some (get_owned_shares stC5W "SPY" +
          (build_buy_order "SPY" 270 (get_owned_shares stC5W "SPY") none
            stC5W.balance stC5W.commission "2018-11-05" ("SPY" ++ "_" ++
            "2018-11-05") none).shares) := by
  have hm : maxAffordableShares 270 1000 6 = 3 := by
    norm_num [maxAffordableShares]
    rfl
  have h := c5_buy_filled_updates stC5W "SPY" 270 "2018-11-05" none none
    (build_buy_order "SPY" 270 (get_owned_shares stC5W "SPY") none
      stC5W.balance stC5W.commission "2018-11-05" ("SPY" ++ "_" ++
      "2018-11-05") none) rfl
    (by norm_num [build_buy_order, get_owned_shares, stC5W, mkAlgo,
          posLookup, hm])
  exact ⟨h.2.2.1.trans (by decide), h.2.2.2.2.1⟩

/-- C6: the caller-supplied output directory is ignored by the inverted
`if not output_dir` guard - with a supplied directory every default
artifact path stays under the fixed test directory, and with no
directory the paths render under the string "None". -/
theorem c6_output_dir_ignored :
    (initPaths false ["SPY"] (some "test") (some "k") (some "/tmp/out")
      "NOW").outputFileDir = some "/opt/sa/tests/datasets/algo"
    ∧ (initPaths false ["SPY"] (some "test") (some "k") (some "/tmp/out")
        "NOW").defaultOutputFile = "/opt/sa/tests/datasets/algo/k.json"
    ∧ (initPaths false ["SPY"] (some "test") (some "k") (some "/tmp/out")
        "NOW").defaultInputOutputFile =
        "/opt/sa/tests/datasets/algo/input-k.json"
    ∧ (initPaths false ["SPY"] (some "test") (some "k") (some "/tmp/out")
        "NOW").defaultHistoryOutputFile =
        "/opt/sa/tests/datasets/algo/history-k.json"
    ∧ (initPaths false ["SPY"] (some "test") (some "k") (some "/tmp/out")
        "NOW").defaultReportOutputFile =
        "/opt/sa/tests/datasets/algo/report-k.json"
    ∧ (initPaths false ["SPY"] (some "test") (some "k") (some "/tmp/out")
        "NOW").defaultOutputFile ≠ "/tmp/out/k.json"
    ∧ (initPaths false ["SPY"] (some "test") (some "k") none
        "NOW").defaultOutputFile = "None/k.json" := by
  decide

/-- C7: with the report-publish flag off, `publish_report_datasets`
returns `(NOT_RUN, output_file)` and never invokes the publish utility,
so no file, cache, archive or chat write occurs. -/
theorem c7_report_disabled_notrun (st : AlgoState)
    (kwOutputDir kwOutputFile : Option (Option String))
    (publishFn : String → StatusCode) (h : st.publishReport = false) :
    publish_report_datasets st kwOutputDir kwOutputFile publishFn =
      { status := .notRun
        outputFile :=
          (let f0 := kwOutputFile.getD st.reportOutputFile
           if st.raiseOnErr then
             if strOptFalsy f0 then
               some (pyStr (kwOutputDir.getD st.outputFileDir) ++
                 "/report-" ++ pyStr st.outputFilePfx ++ ".json")
             else f0
           else f0)
        payloadHanded := none } := by
  simp [publish_report_datasets, h]

/-- C7 witness: the disabled-report theorem applied at a concrete
engine. -/
theorem c7_report_disabled_notrun_witness :
    publish_report_datasets stC7 none none pubFnC3 =
      { status := .notRun, outputFile := some "/tmp/report.json",
        payloadHanded := none } :=
  c7_report_disabled_notrun stC7 none none pubFnC3 rfl

/-- C8: whenever the resolved ticker is truthy and, if the cache sink is
enabled, the cache address splits into host and port (the conditions
under which no exception escapes the outer try block), the task returns
`SUCCESS` for every sink-failure combination, the archive sink is
attempted exactly when enabled (its object write attempted even when the
bucket check or creation failed), and the cache sink is attempted
exactly when enabled, regardless of any archive failure. -/
theorem c8_worker_success_despite_sink_failures (w : WorkDict)
    (world : SinkWorld)
    (ht : ¬ w.ticker.getD TICKER = "")
    (ha : w.redis_enabled.getD ENABLED_REDIS_PUBLISH = true →
      (splitHostPort (w.redis_address.getD REDIS_ADDRESS)).isSome =
        true) :
    (publish_pricing_update w world).1.status = .success
    ∧ (publish_pricing_update w world).2.s3Contacted =
        w.s3_enabled.getD ENABLED_S3_UPLOAD
    ∧ (publish_pricing_update w world).2.s3PutAttempted =
        w.s3_enabled.getD ENABLED_S3_UPLOAD
    ∧ (publish_pricing_update w world).2.redisContacted =
        w.redis_enabled.getD ENABLED_REDIS_PUBLISH := by
  by_cases hre : w.redis_enabled.getD ENABLED_REDIS_PUBLISH = true
  · rcases hsp : splitHostPort (w.redis_address.getD REDIS_ADDRESS) with
      _ | pr
    · have hx := ha hre
      rw [hsp] at hx
      exact absurd hx (by simp)
    · by_cases hs3 : w.s3_enabled.getD ENABLED_S3_UPLOAD = true <;>
        simp [publish_pricing_update, ht, hre, hsp, hs3, build_result]
  · have hre2 : w.redis_enabled.getD ENABLED_REDIS_PUBLISH = false :=
      Bool.eq_false_iff.mpr hre
    by_cases hs3 : w.s3_enabled.getD ENABLED_S3_UPLOAD = true <;>
      simp [publish_pricing_update, ht, hre2, hs3, build_result]

/-- C8 witness: the sink-failure theorem applied to a work order with
both sinks enabled in a world where every external operation fails. -/
theorem c8_worker_success_witness :
    (publish_pricing_update wC8 worldAllFail).1.status = .success
    ∧ (publish_pricing_update wC8 worldAllFail).2.s3PutAttempted = true
    ∧ (publish_pricing_update wC8 worldAllFail).2.redisContacted =
        true := by
  have h := c8_worker_success_despite_sink_failures wC8 worldAllFail
    (by decide) (fun _ => by decide)
  exact ⟨h.1, h.2.2.1.trans (by decide), h.2.2.2.trans (by decide)⟩

/-- C9: replaying the same configuration map through `load_from_config`
twice yields the same attribute map as one application; keys without an
existing attribute are silently ignored, and no application ever creates
or removes an attribute. -/
theorem c9_load_from_config_idempotent {V : Type}
    (s : String → Option V) (c : List (String × V)) :
    load_from_config (load_from_config s c) c = load_from_config s c
    ∧ (∀ k, s k = none → load_from_config s c k = none)
    ∧ (∀ k, (load_from_config s c k).isSome = (s k).isSome) := by
  refine ⟨funext fun k => ?_, fun k hk => ?_, fun k => ?_⟩
  · rw [load_from_config_eval, load_from_config_eval]
    cases hs : s k with
    | none => simp
    | some a => cases hl : lookupLast c k <;> simp [hl]
  · rw [load_from_config_eval, hk]
    rfl
  · rw [load_from_config_eval]
    cases hs : s k <;> simp

/-- C9 witness: the idempotence theorem applied at a concrete attribute
map and configuration. -/
theorem c9_load_from_config_idempotent_witness :
    load_from_config (load_from_config sC9 cC9) cC9 =
      load_from_config sC9 cC9
    ∧ load_from_config sC9 cC9 "unknown" = none :=
  ⟨(c9_load_from_config_idempotent sC9 cC9).1,
   (c9_load_from_config_idempotent sC9 cC9).2.1 "unknown" rfl⟩

/-- C10: when a dataset was loaded from an external source at
construction and is non-empty, `handle_data` replays the loaded dataset
instead of the supplied argument, so any two argument values produce the
same resulting engine state (tickers processed, trade history, balances,
`last_handle_data`). -/
theorem c10_handle_data_replays_loaded (st : AlgoState)
    (d1 d2 : DataMap) (h : dataMapTruthy st.loadedDataset = true) :
    handle_data st d1 = handle_data st d2 := by
  simp [handle_data, h]

/-- C10 witness: the replay theorem applied to an engine with a loaded
dataset, at two different data arguments. -/
theorem c10_handle_data_replays_loaded_witness :
    handle_data stC10 [] = handle_data stC10 dC10 :=
  c10_handle_data_replays_loaded stC10 [] dC10 (by decide)

end StockEngine
